import Mathlib

/-!
Shallow embedding of the stellalpha_vault program, translated from the
modular sources under src/programs/stellalpha_vault/src (state/,
instructions/), which carry the current TraderState layout including the
is_syncing flag.  Pubkeys are modelled as natural numbers, u64 values as
Nat with explicit 2^64 bounds where overflow or truncation matters, and
fallible instruction handlers as functions into Except.  The opaque
external executor (the Jupiter CPI) is modelled as a function from the
snapshot balances of the two token accounts to their post-execution
balances, with none standing for a failed CPI.
-/

namespace StellalphaVault

/-- Modulus of u64 arithmetic. -/
def U64_MOD : Nat := 2 ^ 64

/-- constants.rs: the hardcoded platform fee wallet
("11111111111111111111111111111111", i.e. 32 zero bytes). -/
def PLATFORM_FEE_WALLET : Nat := 0

/-- instructions/swap.rs line 268: the Memo program id
("MemoSq4gqABAXKb96qnH8TysNcWxMyWCqXgDLGmfcQb") that selects the devnet
mock-execution branch; an abstract identifier distinct from the fee wallet. -/
def MEMO_PROGRAM_ID : Nat := 1

/-- errors.rs: the program's error codes. -/
inductive ErrorCode where
  | Unauthorized
  | Paused
  | InvalidSwapOutput
  | TokenNotAllowed
  | InvalidSwapTopology
  | InvalidFeeDestination
  | SlippageExceeded
  | FeeEvasion
  | InvalidInstructionData
  | TraderNotPaused
  | TraderPaused
  | NotSettled
  | InsufficientFunds
  | MintMismatch
  | LegacyTradingDisabled
  | NonZeroBalance
  | InvalidTokenAccountOwner
  | TraderNotInitialized
  | AlreadyInitialized
  deriving DecidableEq, Repr

/-- How a handler run can fail: with one of the program's error codes
(require! or ok_or), with a failed CPI (an SPL token transfer or the
external executor returning an error), or with a Rust panic (unwrap on a
checked operation that returned None). -/
inductive ProgErr where
  | code (e : ErrorCode)
  | cpiFailed
  | unwrapNone
  deriving DecidableEq, Repr

/-- An SPL token account, reduced to the fields the handlers read. -/
structure TokenAccount where
  mint : Nat
  owner : Nat
  amount : Nat
  deriving DecidableEq, Repr

/-- state/user_vault.rs: the per-owner custody root. -/
structure UserVault where
  owner : Nat
  authority : Nat
  bump : Nat
  is_paused : Bool
  base_mint : Nat
  allowed_mints : List Nat
  deriving DecidableEq, Repr

/-- state/global_config.rs: the admin-controlled singleton. -/
structure GlobalConfig where
  admin : Nat
  platform_fee_bps : Nat
  performance_fee_bps : Nat
  legacy_trading_enabled : Bool
  deriving DecidableEq, Repr

/-- state/trader_state.rs: the per-strategy allocation. -/
structure TraderState where
  owner : Nat
  trader : Nat
  vault : Nat
  bump : Nat
  current_value : Nat
  high_water_mark : Nat
  cumulative_profit : Int
  is_paused : Bool
  is_settled : Bool
  is_initialized : Bool
  is_syncing : Bool
  deriving DecidableEq, Repr

/-- Observable result of a successful execute_trader_swap: the updated
TraderState and the final balances of the two token accounts, plus the
platform fee that was collected. -/
structure TraderSwapOutcome where
  trader_state : TraderState
  input_amount : Nat
  output_amount : Nat
  fee_paid : Nat
  deriving DecidableEq, Repr

/-- instructions/swap.rs lines 216-221: the platform fee,
fee = (amount_in as u128 * fee_bps as u128) / 10000, cast back to u64.
For in-range inputs (amount_in < 2^64, fee_bps < 2^16) the u128
checked_mul and checked_div cannot fail; the final `as u64` cast
truncates mod 2^64. -/
def trader_fee (amount_in fee_bps : Nat) : Nat :=
  amount_in * fee_bps / 10000 % U64_MOD

/-- instructions/swap.rs lines 266-315: the execution stage of
execute_trader_swap.  On the devnet mock branch (executor id equals the
Memo program), swap_amount moves from input to output iff the mints are
equal; otherwise the opaque executor exec maps the snapshot balances to
the post-execution balances (none = the CPI failed). -/
def trader_swap_execute_stage (jupiter_program input_mint output_mint
    swap_amount balance_in_before balance_out_before : Nat)
    (exec : Nat → Nat → Option (Nat × Nat)) : Except ProgErr (Nat × Nat) :=
  if jupiter_program = MEMO_PROGRAM_ID then
    if input_mint = output_mint then
      if balance_in_before < swap_amount then .error .cpiFailed
      else .ok (balance_in_before - swap_amount, balance_out_before + swap_amount)
    else .ok (balance_in_before, balance_out_before)
  else
    match exec balance_in_before balance_out_before with
    | some p => .ok p
    | none => .error .cpiFailed

/-- instructions/swap.rs lines 317-345: the post-swap balance checks of
execute_trader_swap (checked_sub().unwrap() on both deltas, the
fee-evasion check against swap_amount, the slippage check against
min_amount_out) and the accounting update on exit to the base asset. -/
def trader_swap_validate (ts : TraderState) (base_mint output_mint
    swap_amount min_amount_out fee balance_in_before balance_out_before
    balance_in_after balance_out_after : Nat) : Except ProgErr TraderSwapOutcome :=
  if balance_in_before < balance_in_after then .error .unwrapNone
  else if balance_out_after < balance_out_before then .error .unwrapNone
  else
    let amount_spent := balance_in_before - balance_in_after
    let amount_received := balance_out_after - balance_out_before
    if swap_amount < amount_spent then .error (.code .FeeEvasion)
    else if amount_received < min_amount_out then .error (.code .SlippageExceeded)
    else
      let ts1 := if output_mint = base_mint
        then { ts with current_value := amount_received } else ts
      .ok { trader_state := ts1, input_amount := balance_in_after,
            output_amount := balance_out_after, fee_paid := fee }

/-- instructions/swap.rs lines 173-346: execute_trader_swap.
trader_state_key is the TraderState PDA address (against which the token
account ownership checks compare); exec is the opaque external executor,
mapping the post-fee-debit snapshot balances of the input and output
accounts to their post-execution balances (none = the CPI failed).
SPL transfers are modelled as failing exactly on insufficient source
funds (destination-balance overflow is not modelled). -/
def execute_trader_swap (authority : Nat) (vault : UserVault)
    (trader_state_key : Nat) (ts : TraderState)
    (input_acc output_acc fee_acc : TokenAccount) (cfg : GlobalConfig)
    (jupiter_program : Nat) (amount_in min_amount_out : Nat)
    (exec : Nat → Nat → Option (Nat × Nat)) : Except ProgErr TraderSwapOutcome :=
  -- 1. Auth & status checks (swap.rs:179-185)
  if ts.is_paused then .error (.code .TraderPaused)
  else if vault.authority ≠ authority then .error (.code .Unauthorized)
  else if ts.is_initialized || ts.is_syncing then
    -- 2. Ownership and topology checks (swap.rs:188-207)
    if input_acc.owner ≠ trader_state_key then .error (.code .InvalidTokenAccountOwner)
    else if output_acc.owner ≠ trader_state_key then .error (.code .InvalidTokenAccountOwner)
    else if (input_acc.mint = vault.base_mint ∨ output_acc.mint = vault.base_mint) ∨
        (input_acc.owner = trader_state_key ∧ output_acc.owner = trader_state_key) then
      -- 3. Platform fee destination (swap.rs:211-214)
      if fee_acc.owner ≠ cfg.admin then .error (.code .InvalidFeeDestination)
      else if fee_acc.mint ≠ input_acc.mint then .error (.code .InvalidFeeDestination)
      else
        let fee := trader_fee amount_in cfg.platform_fee_bps
        -- swap.rs:224: checked_sub.ok_or(FeeEvasion)
        if amount_in < fee then .error (.code .FeeEvasion)
        else
          let swap_amount := amount_in - fee
          -- swap.rs:227-248: fee transfer when fee > 0
          if input_acc.amount < fee then .error .cpiFailed
          else
            -- swap.rs:262-264: balance snapshot reloaded after the fee debit
            let balance_in_before := input_acc.amount - fee
            let balance_out_before := output_acc.amount
            match trader_swap_execute_stage jupiter_program input_acc.mint
                output_acc.mint swap_amount balance_in_before
                balance_out_before exec with
            | .error e => .error e
            | .ok (balance_in_after, balance_out_after) =>
              trader_swap_validate ts vault.base_mint output_acc.mint
                swap_amount min_amount_out fee balance_in_before
                balance_out_before balance_in_after balance_out_after
    else .error (.code .InvalidSwapTopology)
  else .error (.code .TraderNotInitialized)

/-- Observable result of a successful legacy execute_swap: the final
balances of the two vault token accounts and the collected fee. -/
structure LegacySwapOutcome where
  input_amount : Nat
  output_amount : Nat
  fee_paid : Nat
  deriving DecidableEq, Repr

/-- instructions/swap.rs lines 31-33: the whitelist closure of the legacy
path, is_valid_mint = (mint == base_mint || allowed_mints.contains(mint)). -/
def is_valid_mint (vault : UserVault) (mint : Nat) : Bool :=
  mint == vault.base_mint || vault.allowed_mints.contains mint

/-- instructions/swap.rs lines 13-167: the deprecated legacy execute_swap.
ix_data_len is the byte length of the current instruction's encoded data,
from which the executor payload is introspected past a 24-byte header;
exec is the opaque external executor as in execute_trader_swap, applied to
the post-fee-debit input balance and the output balance. -/
def execute_swap (cfg : GlobalConfig) (vault : UserVault) (authority : Nat)
    (acc_in acc_out fee_acc : TokenAccount)
    (amount_in min_amount_out : Nat) (ix_data_len : Nat)
    (exec : Nat → Nat → Option (Nat × Nat)) : Except ProgErr LegacySwapOutcome :=
  -- swap.rs:15-18: feature-flag gate
  if cfg.legacy_trading_enabled then
    -- swap.rs:21-22: pause and authority checks
    if vault.is_paused then .error (.code .Paused)
    else if vault.authority ≠ authority then .error (.code .Unauthorized)
    -- swap.rs:34-35: whitelist check on both mints
    else if is_valid_mint vault acc_in.mint then
      if is_valid_mint vault acc_out.mint then
        -- swap.rs:38-41: topology check
        if acc_in.mint = vault.base_mint ∨ acc_out.mint = vault.base_mint then
          -- swap.rs:46: fee destination check against the hardcoded wallet
          if fee_acc.owner ≠ PLATFORM_FEE_WALLET then .error (.code .InvalidFeeDestination)
          else
            -- swap.rs:49-50: snapshot before the fee debit
            let balance_in_before := acc_in.amount
            let balance_out_before := acc_out.amount
            -- swap.rs:55: fixed 10 bps fee; u64 checked_mul(10).unwrap()
            if U64_MOD ≤ amount_in * 10 then .error .unwrapNone
            else
              let fee_amount := amount_in * 10 / 10000
              -- swap.rs:57-74: fee transfer when fee > 0
              if acc_in.amount < fee_amount then .error .cpiFailed
              else
                -- swap.rs:86-95: introspection of the current instruction data
                if ix_data_len ≤ 8 + 8 + 8 then .error (.code .InvalidInstructionData)
                else
                  -- swap.rs:110-128: executor CPI on the raw payload tail
                  match exec (acc_in.amount - fee_amount) balance_out_before with
                  | none => .error .cpiFailed
                  | some (balance_in_after, balance_out_after) =>
                    -- swap.rs:141-142: slippage check; checked_sub.unwrap_or(0)
                    -- is exactly Nat truncated subtraction
                    let amount_received := balance_out_after - balance_out_before
                    if amount_received < min_amount_out then .error (.code .SlippageExceeded)
                    else
                      -- swap.rs:162-163: fee-evasion check against the
                      -- pre-fee snapshot and the full amount_in
                      let amount_spent := balance_in_before - balance_in_after
                      if amount_in < amount_spent then .error (.code .FeeEvasion)
                      else .ok { input_amount := balance_in_after,
                                 output_amount := balance_out_after,
                                 fee_paid := fee_amount }
        else .error (.code .InvalidSwapTopology)
      else .error (.code .TokenNotAllowed)
    else .error (.code .TokenNotAllowed)
  else .error (.code .LegacyTradingDisabled)

/-- instructions/trader.rs lines 44-49: pause_trader_state. -/
def pause_trader_state (ts : TraderState) : TraderState :=
  { ts with is_paused := true }

/-- instructions/trader.rs lines 51-56: resume_trader_state. -/
def resume_trader_state (ts : TraderState) : TraderState :=
  { ts with is_paused := false }

/-- instructions/trader.rs lines 173-188: settle_trader_state. -/
def settle_trader_state (vault : UserVault) (ts : TraderState)
    (trader_token_account : TokenAccount) : Except ProgErr TraderState :=
  if ts.is_paused then
    if trader_token_account.mint ≠ vault.base_mint then .error (.code .MintMismatch)
    else if trader_token_account.amount < ts.current_value then
      .error (.code .InsufficientFunds)
    else .ok { ts with is_settled := true }
  else .error (.code .TraderNotPaused)

/-- Observable result of a successful withdraw_trader_state: final
balances of the vault transit account and the owner's wallet account, and
the destruction of the TraderState ATA (close_account CPI) and of the
TraderState record itself (close = owner on the accounts struct). -/
structure WithdrawOutcome where
  vault_token_amount : Nat
  owner_token_amount : Nat
  trader_token_closed : Bool
  trader_state_closed : Bool
  deriving DecidableEq, Repr

/-- instructions/trader.rs lines 194-261: withdraw_trader_state.  The
full TraderState ATA balance moves TraderState -> UserVault -> owner
wallet, then the ATA is closed; the second transfer cannot lack funds
because the first just credited the same amount. -/
def withdraw_trader_state (ts : TraderState)
    (trader_acc vault_acc owner_acc : TokenAccount) : Except ProgErr WithdrawOutcome :=
  if ts.is_paused then
    if ts.is_settled then
      let amount := trader_acc.amount
      .ok { vault_token_amount := vault_acc.amount + amount - amount,
            owner_token_amount := owner_acc.amount + amount,
            trader_token_closed := true,
            trader_state_closed := true }
    else .error (.code .NotSettled)
  else .error (.code .TraderNotPaused)

/-- instructions/trader.rs lines 115-130: mark_trader_initialized
(signer must be the vault owner or the backend authority; one-time). -/
def mark_trader_initialized (signer : Nat) (vault : UserVault)
    (ts : TraderState) : Except ProgErr TraderState :=
  if signer = vault.owner ∨ signer = vault.authority then
    if ts.is_initialized then .error (.code .AlreadyInitialized)
    else .ok { ts with is_initialized := true }
  else .error (.code .Unauthorized)

/-- instructions/admin.rs lines 15-22 with the ManageWhitelist accounts
struct (lines 75-86): the has_one = owner constraint gates the handler on
the vault owner signing; the handler pushes the mint unless present. -/
def add_allowed_mint (signer : Nat) (vault : UserVault) (mint : Nat) :
    Except ProgErr UserVault :=
  if vault.owner ≠ signer then .error (.code .Unauthorized)
  else if vault.allowed_mints.contains mint then .ok vault
  else .ok { vault with allowed_mints := vault.allowed_mints ++ [mint] }

/-- instructions/admin.rs lines 24-31 with the same ManageWhitelist gate:
iter().position() finds the first occurrence and remove(pos) deletes it,
which is exactly List.erase; no occurrence is a silent no-op. -/
def remove_allowed_mint (signer : Nat) (vault : UserVault) (mint : Nat) :
    Except ProgErr UserVault :=
  if vault.owner ≠ signer then .error (.code .Unauthorized)
  else .ok { vault with allowed_mints := vault.allowed_mints.erase mint }

/-- The fee-destination validation in the words of spec section 4.4 step
4 (for comparison with the legacy path in claim C6): the fee account's
owner must equal the configured admin identity and its mint must equal
the input mint. -/
def spec_fee_destination_ok (admin input_mint : Nat) (fee_acc : TokenAccount) : Prop :=
  fee_acc.owner = admin ∧ fee_acc.mint = input_mint

instance (admin input_mint : Nat) (fee_acc : TokenAccount) :
    Decidable (spec_fee_destination_ok admin input_mint fee_acc) :=
  inferInstanceAs (Decidable (_ ∧ _))

/-! Helper lemmas. -/

/-- Inversion on a successful execute_trader_swap run: the gate conditions
must have held, and the returned TraderState can differ from the input one
only in current_value. -/
theorem execute_trader_swap_ok_inversion
    (authority : Nat) (vault : UserVault) (k : Nat) (ts : TraderState)
    (ia oa fa : TokenAccount) (cfg : GlobalConfig) (jp ai mo : Nat)
    (ex : Nat → Nat → Option (Nat × Nat)) (out : TraderSwapOutcome)
    (h : execute_trader_swap authority vault k ts ia oa fa cfg jp ai mo ex = .ok out) :
    ts.is_paused = false ∧ vault.authority = authority ∧
    (ts.is_initialized || ts.is_syncing) = true ∧
    out.trader_state = { ts with current_value := out.trader_state.current_value } := by
  have hval : ∀ base_mint output_mint swap_amount mo2 fee b1 b2 b3 b4,
      trader_swap_validate ts base_mint output_mint swap_amount mo2 fee
        b1 b2 b3 b4 = .ok out →
      out.trader_state = { ts with current_value := out.trader_state.current_value } := by
    intro base_mint output_mint swap_amount mo2 fee b1 b2 b3 b4 hv
    by_cases hv1 : b1 < b3
    · simp [trader_swap_validate, hv1] at hv
    by_cases hv2 : b4 < b2
    · simp [trader_swap_validate, hv1, hv2] at hv
    by_cases hv3 : swap_amount < b1 - b3
    · simp [trader_swap_validate, hv1, hv2, hv3] at hv
    by_cases hv4 : b4 - b2 < mo2
    · simp [trader_swap_validate, hv1, hv2, hv3, hv4] at hv
    by_cases hv5 : output_mint = base_mint
    · simp [trader_swap_validate, hv1, hv2, hv3, hv4, hv5] at hv
      rw [← hv]
    · simp [trader_swap_validate, hv1, hv2, hv3, hv4, hv5] at hv
      rw [← hv]
  have h1 : ts.is_paused = false := by
    by_contra hc
    simp only [Bool.not_eq_false] at hc
    simp [execute_trader_swap, hc] at h
  have h2 : vault.authority = authority := by
    by_contra hc
    simp [execute_trader_swap, h1, hc] at h
  have h3 : (ts.is_initialized || ts.is_syncing) = true := by
    by_contra hc
    simp [execute_trader_swap, h1, h2, hc] at h
  refine ⟨h1, h2, h3, ?_⟩
  have h4 : ia.owner = k := by
    by_contra hc
    simp [execute_trader_swap, h1, h2, h3, hc] at h
  have h5 : oa.owner = k := by
    by_contra hc
    simp [execute_trader_swap, h1, h2, h3, h4, hc] at h
  have h6 : fa.owner = cfg.admin := by
    by_contra hc
    simp [execute_trader_swap, h1, h2, h3, h4, h5, hc] at h
  have h7 : fa.mint = ia.mint := by
    by_contra hc
    simp [execute_trader_swap, h1, h2, h3, h4, h5, h6, hc] at h
  by_cases h8 : ai < trader_fee ai cfg.platform_fee_bps
  · exfalso; simp [execute_trader_swap, h1, h2, h3, h4, h5, h6, h7, h8] at h
  by_cases h9 : ia.amount < trader_fee ai cfg.platform_fee_bps
  · exfalso; simp [execute_trader_swap, h1, h2, h3, h4, h5, h6, h7, h8, h9] at h
  simp only [execute_trader_swap, h1, h2, h3, h4, h5, h6, h7, h8, h9] at h
  simp at h
  cases hex : trader_swap_execute_stage jp ia.mint oa.mint
      (ai - trader_fee ai cfg.platform_fee_bps)
      (ia.amount - trader_fee ai cfg.platform_fee_bps) oa.amount ex with
  | error e =>
    rw [hex] at h
    exact Except.noConfusion h
  | ok p =>
    rw [hex] at h
    obtain ⟨b3, b4⟩ := p
    exact hval _ _ _ _ _ _ _ _ _ h

/-- Claim C3: in execute_trader_swap, fee = floor(amount_in *
platform_fee_bps / 10000) with 128-bit intermediate arithmetic, and for
fee_bps in 0..=10000 fee is at most amount_in; when fee exceeds amount_in
(possible only for fee_bps above 10000) the handler fails with FeeEvasion
from the checked subtraction instead of underflowing. -/
theorem trader_fee_correct :
    (∀ amount_in fee_bps : Nat, amount_in < U64_MOD → fee_bps ≤ 10000 →
      trader_fee amount_in fee_bps = amount_in * fee_bps / 10000 ∧
      trader_fee amount_in fee_bps ≤ amount_in) ∧
    (∀ (authority : Nat) (vault : UserVault) (k : Nat) (ts : TraderState)
        (ia oa fa : TokenAccount) (cfg : GlobalConfig) (jp ai mo : Nat)
        (ex : Nat → Nat → Option (Nat × Nat)),
      ts.is_paused = false → vault.authority = authority →
      (ts.is_initialized || ts.is_syncing) = true →
      ia.owner = k → oa.owner = k →
      fa.owner = cfg.admin → fa.mint = ia.mint →
      ai < trader_fee ai cfg.platform_fee_bps →
      execute_trader_swap authority vault k ts ia oa fa cfg jp ai mo ex
        = .error (.code .FeeEvasion)) := by
  constructor
  · intro a b ha hb
    have hle : a * b / 10000 ≤ a := by
      calc a * b / 10000 ≤ a * 10000 / 10000 :=
            Nat.div_le_div_right (Nat.mul_le_mul_left a hb)
        _ = a := Nat.mul_div_cancel a (by norm_num)
    have hlt : a * b / 10000 < U64_MOD := lt_of_le_of_lt hle ha
    exact ⟨Nat.mod_eq_of_lt hlt, le_trans (Nat.mod_le _ _) hle⟩
  · intro authority vault k ts ia oa fa cfg jp ai mo ex h1 h2 h3 h4 h5 h6 h7 h8
    simp [execute_trader_swap, h1, h2, h3, h4, h5, h6, h7, h8]

/-- Witness for trader_fee_correct at amount_in = 1000, fee_bps = 10
(fee 1) and at a concrete over-10000 fee rate (20000 bps on amount 1,
fee 2 exceeding the amount, hence FeeEvasion). -/
theorem trader_fee_correct_witness :
    (trader_fee 1000 10 = 1000 * 10 / 10000 ∧ trader_fee 1000 10 ≤ 1000) ∧
    execute_trader_swap 2 ⟨1, 2, 0, false, 7, []⟩ 20
      ⟨1, 3, 10, 0, 100, 100, 0, false, false, true, false⟩
      ⟨7, 20, 2000⟩ ⟨8, 20, 0⟩ ⟨7, 5, 0⟩ ⟨5, 20000, 2000, false⟩ 3 1 0
      (fun a b => some (a, b)) = .error (.code .FeeEvasion) :=
  ⟨trader_fee_correct.1 1000 10 (by decide) (by decide),
   trader_fee_correct.2 2 ⟨1, 2, 0, false, 7, []⟩ 20
     ⟨1, 3, 10, 0, 100, 100, 0, false, false, true, false⟩
     ⟨7, 20, 2000⟩ ⟨8, 20, 0⟩ ⟨7, 5, 0⟩ ⟨5, 20000, 2000, false⟩ 3 1 0
     (fun a b => some (a, b)) (by decide) (by decide) (by decide) (by decide)
     (by decide) (by decide) (by decide) (by decide)⟩

/-- Claim C4: settle_trader_state fails with TraderNotPaused unless the
allocation is paused, with MintMismatch unless the examined holding is in
the vault base asset, with InsufficientFunds unless the holding covers
current_value, and on success sets is_settled and nothing else. -/
theorem settle_trader_state_spec :
    ∀ (vault : UserVault) (ts : TraderState) (acc : TokenAccount),
      (ts.is_paused = false →
        settle_trader_state vault ts acc = .error (.code .TraderNotPaused)) ∧
      (ts.is_paused = true → acc.mint ≠ vault.base_mint →
        settle_trader_state vault ts acc = .error (.code .MintMismatch)) ∧
      (ts.is_paused = true → acc.mint = vault.base_mint →
        acc.amount < ts.current_value →
        settle_trader_state vault ts acc = .error (.code .InsufficientFunds)) ∧
      (ts.is_paused = true → acc.mint = vault.base_mint →
        ts.current_value ≤ acc.amount →
        settle_trader_state vault ts acc = .ok { ts with is_settled := true }) := by
  intro vault ts acc
  refine ⟨?_, ?_, ?_, ?_⟩
  · intro h1; simp [settle_trader_state, h1]
  · intro h1 h2; simp [settle_trader_state, h1, h2]
  · intro h1 h2 h3; simp [settle_trader_state, h1, h2, h3]
  · intro h1 h2 h3
    simp [settle_trader_state, h1, h2, Nat.not_lt.mpr h3]

/-- Witness for settle_trader_state_spec: the four cases at concrete
states (unpaused; wrong mint; undercollateralized; and the success case
of spec scenario D with holdings 500 against current_value 500). -/
theorem settle_trader_state_spec_witness :
    settle_trader_state ⟨1, 2, 0, false, 7, []⟩
      ⟨1, 3, 10, 0, 500, 500, 0, false, false, true, false⟩ ⟨7, 20, 500⟩
      = .error (.code .TraderNotPaused) ∧
    settle_trader_state ⟨1, 2, 0, false, 7, []⟩
      ⟨1, 3, 10, 0, 500, 500, 0, true, false, true, false⟩ ⟨8, 20, 500⟩
      = .error (.code .MintMismatch) ∧
    settle_trader_state ⟨1, 2, 0, false, 7, []⟩
      ⟨1, 3, 10, 0, 500, 500, 0, true, false, true, false⟩ ⟨7, 20, 499⟩
      = .error (.code .InsufficientFunds) ∧
    settle_trader_state ⟨1, 2, 0, false, 7, []⟩
      ⟨1, 3, 10, 0, 500, 500, 0, true, false, true, false⟩ ⟨7, 20, 500⟩
      = .ok ⟨1, 3, 10, 0, 500, 500, 0, true, true, true, false⟩ :=
  ⟨(settle_trader_state_spec _ _ _).1 (by decide),
   (settle_trader_state_spec _ _ _).2.1 (by decide) (by decide),
   (settle_trader_state_spec _ _ _).2.2.1 (by decide) (by decide) (by decide),
   (settle_trader_state_spec _ _ _).2.2.2 (by decide) (by decide) (by decide)⟩

/-- Claim C5: withdraw_trader_state fails with TraderNotPaused / NotSettled
unless paused and settled (no state is produced on failure), and on
success moves the full TraderState holding through the vault transit
account to the owner wallet, leaving the transit balance unchanged net,
and destroys the TraderState record and its holding account. -/
theorem withdraw_trader_state_spec :
    ∀ (ts : TraderState) (trader_acc vault_acc owner_acc : TokenAccount),
      (ts.is_paused = false →
        withdraw_trader_state ts trader_acc vault_acc owner_acc
          = .error (.code .TraderNotPaused)) ∧
      (ts.is_paused = true → ts.is_settled = false →
        withdraw_trader_state ts trader_acc vault_acc owner_acc
          = .error (.code .NotSettled)) ∧
      (ts.is_paused = true → ts.is_settled = true →
        withdraw_trader_state ts trader_acc vault_acc owner_acc
          = .ok { vault_token_amount := vault_acc.amount,
                  owner_token_amount := owner_acc.amount + trader_acc.amount,
                  trader_token_closed := true,
                  trader_state_closed := true }) := by
  intro ts trader_acc vault_acc owner_acc
  refine ⟨?_, ?_, ?_⟩
  · intro h1; simp [withdraw_trader_state, h1]
  · intro h1 h2; simp [withdraw_trader_state, h1, h2]
  · intro h1 h2; simp [withdraw_trader_state, h1, h2]

/-- Witness for withdraw_trader_state_spec: spec scenario D at holdings
500 (owner wallet goes from 0 to 500, the transit account is net
unchanged, both accounts destroyed), plus the two failure gates. -/
theorem withdraw_trader_state_spec_witness :
    withdraw_trader_state ⟨1, 3, 10, 0, 500, 500, 0, false, true, true, false⟩
      ⟨7, 20, 500⟩ ⟨7, 10, 0⟩ ⟨7, 1, 0⟩ = .error (.code .TraderNotPaused) ∧
    withdraw_trader_state ⟨1, 3, 10, 0, 500, 500, 0, true, false, true, false⟩
      ⟨7, 20, 500⟩ ⟨7, 10, 0⟩ ⟨7, 1, 0⟩ = .error (.code .NotSettled) ∧
    withdraw_trader_state ⟨1, 3, 10, 0, 500, 500, 0, true, true, true, false⟩
      ⟨7, 20, 500⟩ ⟨7, 10, 0⟩ ⟨7, 1, 0⟩
      = .ok { vault_token_amount := 0, owner_token_amount := 500,
              trader_token_closed := true, trader_state_closed := true } :=
  ⟨(withdraw_trader_state_spec _ _ _ _).1 (by decide),
   (withdraw_trader_state_spec _ _ _ _).2.1 (by decide) (by decide),
   (withdraw_trader_state_spec _ _ _ _).2.2 (by decide) (by decide)⟩

/-- Claim C1: in execute_trader_swap, for every executor behavior, if the
decrease of the input holding balance measured from the post-fee-debit
snapshot exceeds swap_amount = amount_in - fee, the run fails with
FeeEvasion, with no constraint on whether the received amount meets the
slippage floor. -/
theorem execute_trader_swap_fee_evasion :
    ∀ (authority : Nat) (vault : UserVault) (k : Nat) (ts : TraderState)
      (ia oa fa : TokenAccount) (cfg : GlobalConfig)
      (jp ai mo fee bin_after bout_after : Nat)
      (ex : Nat → Nat → Option (Nat × Nat)),
    ts.is_paused = false → vault.authority = authority →
    (ts.is_initialized || ts.is_syncing) = true →
    ia.owner = k → oa.owner = k →
    fa.owner = cfg.admin → fa.mint = ia.mint →
    trader_fee ai cfg.platform_fee_bps = fee →
    fee ≤ ai → fee ≤ ia.amount →
    jp ≠ MEMO_PROGRAM_ID →
    ex (ia.amount - fee) oa.amount = some (bin_after, bout_after) →
    bin_after ≤ ia.amount - fee →
    oa.amount ≤ bout_after →
    ai - fee < ia.amount - fee - bin_after →
    execute_trader_swap authority vault k ts ia oa fa cfg jp ai mo ex
      = .error (.code .FeeEvasion) := by
  intro authority vault k ts ia oa fa cfg jp ai mo fee bin_after bout_after ex
    h1 h2 h3 h4 h5 h6 h7 hfee hf1 hf2 hjp hex hin hout hspent
  subst hfee
  simp [execute_trader_swap, trader_swap_execute_stage, trader_swap_validate,
    h1, h2, h3, h4, h5, h6, h7, Nat.not_lt.mpr hf1, Nat.not_lt.mpr hf2, hjp,
    hex, Nat.not_lt.mpr hin, Nat.not_lt.mpr hout, hspent]

/-- Witness for execute_trader_swap_fee_evasion: spec scenario B, declared
amount_in 1 (fee 0, swap_amount 1) against an executor that drains 1000
from the input account; the run ends in FeeEvasion. -/
theorem execute_trader_swap_fee_evasion_witness :
    execute_trader_swap 2 ⟨1, 2, 0, false, 7, []⟩ 20
      ⟨1, 3, 10, 0, 100, 100, 0, false, false, true, false⟩
      ⟨7, 20, 2000⟩ ⟨8, 20, 0⟩ ⟨7, 5, 0⟩ ⟨5, 10, 2000, false⟩ 3 1 0
      (fun a b => some (a - 1000, b + 1000)) = .error (.code .FeeEvasion) :=
  execute_trader_swap_fee_evasion 2 ⟨1, 2, 0, false, 7, []⟩ 20
    ⟨1, 3, 10, 0, 100, 100, 0, false, false, true, false⟩
    ⟨7, 20, 2000⟩ ⟨8, 20, 0⟩ ⟨7, 5, 0⟩ ⟨5, 10, 2000, false⟩ 3 1 0 0 1000 1000
    (fun a b => some (a - 1000, b + 1000)) (by decide) (by decide) (by decide)
    (by decide) (by decide) (by decide) (by decide) (by decide) (by decide)
    (by decide) (by decide) (by decide) (by decide) (by decide) (by decide)

/-- Claim C2: execute_trader_swap fails with TraderPaused when the
allocation is paused, with Unauthorized when the caller is not the
vault's delegated authority, with TraderNotInitialized when the
allocation is neither initialized nor syncing, and any successful run
implies all three gate conditions held. -/
theorem execute_trader_swap_authorization :
    ∀ (authority : Nat) (vault : UserVault) (k : Nat) (ts : TraderState)
      (ia oa fa : TokenAccount) (cfg : GlobalConfig) (jp ai mo : Nat)
      (ex : Nat → Nat → Option (Nat × Nat)),
      (ts.is_paused = true →
        execute_trader_swap authority vault k ts ia oa fa cfg jp ai mo ex
          = .error (.code .TraderPaused)) ∧
      (ts.is_paused = false → vault.authority ≠ authority →
        execute_trader_swap authority vault k ts ia oa fa cfg jp ai mo ex
          = .error (.code .Unauthorized)) ∧
      (ts.is_paused = false → vault.authority = authority →
        ts.is_initialized = false → ts.is_syncing = false →
        execute_trader_swap authority vault k ts ia oa fa cfg jp ai mo ex
          = .error (.code .TraderNotInitialized)) ∧
      (∀ out, execute_trader_swap authority vault k ts ia oa fa cfg jp ai mo ex
          = .ok out →
        ts.is_paused = false ∧ vault.authority = authority ∧
        (ts.is_initialized = true ∨ ts.is_syncing = true)) := by
  intro authority vault k ts ia oa fa cfg jp ai mo ex
  refine ⟨?_, ?_, ?_, ?_⟩
  · intro hp; simp [execute_trader_swap, hp]
  · intro hp ha; simp [execute_trader_swap, hp, ha]
  · intro hp ha hi hs; simp [execute_trader_swap, hp, ha, hi, hs]
  · intro out hok
    obtain ⟨p1, p2, p3, _⟩ := execute_trader_swap_ok_inversion
      authority vault k ts ia oa fa cfg jp ai mo ex out hok
    exact ⟨p1, p2, by simpa using p3⟩

/-- Witness for execute_trader_swap_authorization: the three error gates
at concrete states, and the inversion conjunct applied to a successful
mock-mode run (spec scenario A: amount_in 1000, fee 1, mock executor
moves 999 between same-mint accounts). -/
theorem execute_trader_swap_authorization_witness :
    execute_trader_swap 2 ⟨1, 2, 0, false, 7, []⟩ 20
      ⟨1, 3, 10, 0, 100, 100, 0, true, false, true, false⟩
      ⟨7, 20, 2000⟩ ⟨7, 20, 0⟩ ⟨7, 5, 0⟩ ⟨5, 10, 2000, false⟩ 1 1000 999
      (fun a b => some (a, b)) = .error (.code .TraderPaused) ∧
    execute_trader_swap 9 ⟨1, 2, 0, false, 7, []⟩ 20
      ⟨1, 3, 10, 0, 100, 100, 0, false, false, true, false⟩
      ⟨7, 20, 2000⟩ ⟨7, 20, 0⟩ ⟨7, 5, 0⟩ ⟨5, 10, 2000, false⟩ 1 1000 999
      (fun a b => some (a, b)) = .error (.code .Unauthorized) ∧
    execute_trader_swap 2 ⟨1, 2, 0, false, 7, []⟩ 20
      ⟨1, 3, 10, 0, 100, 100, 0, false, false, false, false⟩
      ⟨7, 20, 2000⟩ ⟨7, 20, 0⟩ ⟨7, 5, 0⟩ ⟨5, 10, 2000, false⟩ 1 1000 999
      (fun a b => some (a, b)) = .error (.code .TraderNotInitialized) ∧
    (false = false ∧ 2 = 2 ∧ (true = true ∨ false = true)) :=
  ⟨(execute_trader_swap_authorization 2 ⟨1, 2, 0, false, 7, []⟩ 20
      ⟨1, 3, 10, 0, 100, 100, 0, true, false, true, false⟩
      ⟨7, 20, 2000⟩ ⟨7, 20, 0⟩ ⟨7, 5, 0⟩ ⟨5, 10, 2000, false⟩ 1 1000 999
      (fun a b => some (a, b))).1 (by decide),
   (execute_trader_swap_authorization 9 ⟨1, 2, 0, false, 7, []⟩ 20
      ⟨1, 3, 10, 0, 100, 100, 0, false, false, true, false⟩
      ⟨7, 20, 2000⟩ ⟨7, 20, 0⟩ ⟨7, 5, 0⟩ ⟨5, 10, 2000, false⟩ 1 1000 999
      (fun a b => some (a, b))).2.1 (by decide) (by decide),
   (execute_trader_swap_authorization 2 ⟨1, 2, 0, false, 7, []⟩ 20
      ⟨1, 3, 10, 0, 100, 100, 0, false, false, false, false⟩
      ⟨7, 20, 2000⟩ ⟨7, 20, 0⟩ ⟨7, 5, 0⟩ ⟨5, 10, 2000, false⟩ 1 1000 999
      (fun a b => some (a, b))).2.2.1 (by decide) (by decide) (by decide)
      (by decide),
   (execute_trader_swap_authorization 2 ⟨1, 2, 0, false, 7, []⟩ 20
      ⟨1, 3, 10, 0, 100, 100, 0, false, false, true, false⟩
      ⟨7, 20, 2000⟩ ⟨7, 20, 0⟩ ⟨7, 5, 0⟩ ⟨5, 10, 2000, false⟩ 1 1000 999
      (fun a b => some (a, b))).2.2.2
     ⟨⟨1, 3, 10, 0, 999, 100, 0, false, false, true, false⟩, 1000, 999, 1⟩
     (by rfl)⟩

/-- Claim C8: in both swap entry points, when the measured received
amount falls short of min_amount_out while the spend stayed within the
authorized budget, the run fails with SlippageExceeded (on the legacy
path the slippage check even precedes the fee-evasion check, so no
budget hypothesis is needed there). -/
theorem swap_slippage_checks :
    (∀ (authority : Nat) (vault : UserVault) (k : Nat) (ts : TraderState)
       (ia oa fa : TokenAccount) (cfg : GlobalConfig)
       (jp ai mo fee bin_after bout_after : Nat)
       (ex : Nat → Nat → Option (Nat × Nat)),
      ts.is_paused = false → vault.authority = authority →
      (ts.is_initialized || ts.is_syncing) = true →
      ia.owner = k → oa.owner = k →
      fa.owner = cfg.admin → fa.mint = ia.mint →
      trader_fee ai cfg.platform_fee_bps = fee →
      fee ≤ ai → fee ≤ ia.amount →
      jp ≠ MEMO_PROGRAM_ID →
      ex (ia.amount - fee) oa.amount = some (bin_after, bout_after) →
      bin_after ≤ ia.amount - fee →
      oa.amount ≤ bout_after →
      ia.amount - fee - bin_after ≤ ai - fee →
      bout_after - oa.amount < mo →
      execute_trader_swap authority vault k ts ia oa fa cfg jp ai mo ex
        = .error (.code .SlippageExceeded)) ∧
    (∀ (cfg : GlobalConfig) (vault : UserVault) (authority : Nat)
       (ain aout fa : TokenAccount) (ai mo dl bin_after bout_after : Nat)
       (ex : Nat → Nat → Option (Nat × Nat)),
      cfg.legacy_trading_enabled = true → vault.is_paused = false →
      vault.authority = authority →
      is_valid_mint vault ain.mint = true →
      is_valid_mint vault aout.mint = true →
      (ain.mint = vault.base_mint ∨ aout.mint = vault.base_mint) →
      fa.owner = PLATFORM_FEE_WALLET →
      ai * 10 < U64_MOD →
      ai * 10 / 10000 ≤ ain.amount →
      24 < dl →
      ex (ain.amount - ai * 10 / 10000) aout.amount = some (bin_after, bout_after) →
      bout_after - aout.amount < mo →
      execute_swap cfg vault authority ain aout fa ai mo dl ex
        = .error (.code .SlippageExceeded)) := by
  constructor
  · intro authority vault k ts ia oa fa cfg jp ai mo fee bin_after bout_after ex
      h1 h2 h3 h4 h5 h6 h7 hfee hf1 hf2 hjp hex hin hout hspent hrecv
    subst hfee
    simp [execute_trader_swap, trader_swap_execute_stage, trader_swap_validate,
      h1, h2, h3, h4, h5, h6, h7, Nat.not_lt.mpr hf1, Nat.not_lt.mpr hf2, hjp,
      hex, Nat.not_lt.mpr hin, Nat.not_lt.mpr hout, Nat.not_lt.mpr hspent, hrecv]
  · intro cfg vault authority ain aout fa ai mo dl bin_after bout_after ex
      h1 h2 h3 h4 h5 h6 h7 hmul hfee hdl hex hrecv
    simp [execute_swap, h1, h2, h3, h4, h5, h6, h7, not_le.mpr hmul,
      Nat.not_lt.mpr hfee, not_le.mpr hdl, hex, hrecv]

/-- Witness for swap_slippage_checks: on both paths a compliant spend
(the executor moves nothing) that still receives less than
min_amount_out ends in SlippageExceeded. -/
theorem swap_slippage_checks_witness :
    execute_trader_swap 2 ⟨1, 2, 0, false, 7, []⟩ 20
      ⟨1, 3, 10, 0, 100, 100, 0, false, false, true, false⟩
      ⟨7, 20, 2000⟩ ⟨8, 20, 0⟩ ⟨7, 5, 0⟩ ⟨5, 10, 2000, false⟩ 3 1000 1
      (fun a b => some (a, b)) = .error (.code .SlippageExceeded) ∧
    execute_swap ⟨5, 10, 2000, true⟩ ⟨1, 2, 0, false, 7, []⟩ 2
      ⟨7, 10, 2000⟩ ⟨7, 10, 0⟩ ⟨7, 0, 0⟩ 1000 1 25
      (fun a b => some (a, b)) = .error (.code .SlippageExceeded) :=
  ⟨swap_slippage_checks.1 2 ⟨1, 2, 0, false, 7, []⟩ 20
      ⟨1, 3, 10, 0, 100, 100, 0, false, false, true, false⟩
      ⟨7, 20, 2000⟩ ⟨8, 20, 0⟩ ⟨7, 5, 0⟩ ⟨5, 10, 2000, false⟩ 3 1000 1 1 1999 0
      (fun a b => some (a, b)) (by decide) (by decide) (by decide) (by decide)
      (by decide) (by decide) (by decide) (by decide) (by decide) (by decide)
      (by decide) (by decide) (by decide) (by decide) (by decide) (by decide),
   swap_slippage_checks.2 ⟨5, 10, 2000, true⟩ ⟨1, 2, 0, false, 7, []⟩ 2
      ⟨7, 10, 2000⟩ ⟨7, 10, 0⟩ ⟨7, 0, 0⟩ 1000 1 25 1999 0
      (fun a b => some (a, b)) (by decide) (by decide) (by decide) (by decide)
      (by decide) (by decide) (by decide) (by decide) (by decide) (by decide)
      (by decide) (by decide)⟩

/-- Claim C7: add_allowed_mint and remove_allowed_mint are gated on the
vault owner signing and are idempotent: starting from a whitelist that
holds the mint at most once (true of every reachable whitelist, since
add never duplicates), adding it twice leaves it exactly once, and
removing an absent mint succeeds without changing the vault. -/
theorem manage_whitelist_spec :
    ∀ (s : Nat) (v : UserVault) (m : Nat),
      (s ≠ v.owner →
        add_allowed_mint s v m = .error (.code .Unauthorized) ∧
        remove_allowed_mint s v m = .error (.code .Unauthorized)) ∧
      (∀ v1 v2, v.allowed_mints.count m ≤ 1 →
        add_allowed_mint v.owner v m = .ok v1 →
        add_allowed_mint v.owner v1 m = .ok v2 →
        v2.allowed_mints.count m = 1) ∧
      (m ∉ v.allowed_mints → remove_allowed_mint v.owner v m = .ok v) := by
  intro s v m
  refine ⟨?_, ?_, ?_⟩
  · intro hs
    constructor
    · simp [add_allowed_mint, Ne.symm hs]
    · simp [remove_allowed_mint, Ne.symm hs]
  · intro v1 v2 hcount h1 h2
    by_cases hc : v.allowed_mints.contains m
    · have hmem : m ∈ v.allowed_mints := by simpa using hc
      have hone : v.allowed_mints.count m = 1 :=
        Nat.le_antisymm hcount (List.count_pos_iff.mpr hmem)
      simp [add_allowed_mint, hmem] at h1
      subst h1
      simp [add_allowed_mint, hmem] at h2
      subst h2
      exact hone
    · have hnot : m ∉ v.allowed_mints := by simpa using hc
      have hzero : v.allowed_mints.count m = 0 := List.count_eq_zero.mpr hnot
      simp [add_allowed_mint, hnot] at h1
      subst h1
      have hmem1 : m ∈ v.allowed_mints ++ [m] := by simp
      simp [add_allowed_mint, hmem1] at h2
      subst h2
      simp [List.count_append, hzero]
  · intro hm
    simp [remove_allowed_mint, List.erase_of_not_mem hm]

/-- Witness for manage_whitelist_spec: a non-owner signer is rejected on
both operations; adding mint 4 twice to the whitelist that holds only 5
leaves exactly one copy of 4; removing the absent mint 9 is a successful
no-op. -/
theorem manage_whitelist_spec_witness :
    (add_allowed_mint 9 ⟨1, 2, 0, false, 7, [5]⟩ 5 = .error (.code .Unauthorized) ∧
     remove_allowed_mint 9 ⟨1, 2, 0, false, 7, [5]⟩ 5 = .error (.code .Unauthorized)) ∧
    ([5, 4] : List Nat).count 4 = 1 ∧
    remove_allowed_mint 1 ⟨1, 2, 0, false, 7, [5]⟩ 9 = .ok ⟨1, 2, 0, false, 7, [5]⟩ :=
  ⟨(manage_whitelist_spec 9 ⟨1, 2, 0, false, 7, [5]⟩ 5).1 (by decide),
   (manage_whitelist_spec 1 ⟨1, 2, 0, false, 7, [5]⟩ 4).2.1
     ⟨1, 2, 0, false, 7, [5, 4]⟩ ⟨1, 2, 0, false, 7, [5, 4]⟩
     (by decide) (by rfl) (by rfl),
   (manage_whitelist_spec 1 ⟨1, 2, 0, false, 7, [5]⟩ 9).2.2 (by decide)⟩

/-- Claim C10: is_settled, once true, is never reset while the account
exists: pause and resume touch only is_paused (resume unconditionally
clears it, settled or not), a successful execute_trader_swap changes
only current_value, settlement only sets is_settled, initialization
marking only sets is_initialized; hence a settled, initialized
TraderState resumes to a swap-eligible state with is_settled still
true. -/
theorem is_settled_irreversible :
    (∀ ts : TraderState, pause_trader_state ts = { ts with is_paused := true }) ∧
    (∀ ts : TraderState, resume_trader_state ts = { ts with is_paused := false }) ∧
    (∀ (authority : Nat) (vault : UserVault) (k : Nat) (ts : TraderState)
       (ia oa fa : TokenAccount) (cfg : GlobalConfig) (jp ai mo : Nat)
       (ex : Nat → Nat → Option (Nat × Nat)) (out : TraderSwapOutcome),
      execute_trader_swap authority vault k ts ia oa fa cfg jp ai mo ex = .ok out →
      out.trader_state = { ts with current_value := out.trader_state.current_value }) ∧
    (∀ (vault : UserVault) (ts ts1 : TraderState) (acc : TokenAccount),
      settle_trader_state vault ts acc = .ok ts1 →
      ts1 = { ts with is_settled := true }) ∧
    (∀ (s : Nat) (vault : UserVault) (ts ts1 : TraderState),
      mark_trader_initialized s vault ts = .ok ts1 →
      ts1 = { ts with is_initialized := true }) ∧
    (∀ ts : TraderState, ts.is_settled = true → ts.is_initialized = true →
      (resume_trader_state ts).is_paused = false ∧
      (resume_trader_state ts).is_settled = true ∧
      ((resume_trader_state ts).is_initialized ||
        (resume_trader_state ts).is_syncing) = true) := by
  refine ⟨fun ts => rfl, fun ts => rfl, ?_, ?_, ?_, ?_⟩
  · intro authority vault k ts ia oa fa cfg jp ai mo ex out h
    exact (execute_trader_swap_ok_inversion
      authority vault k ts ia oa fa cfg jp ai mo ex out h).2.2.2
  · intro vault ts ts1 acc h
    by_cases h1 : ts.is_paused
    · by_cases h2 : acc.mint = vault.base_mint
      · by_cases h3 : acc.amount < ts.current_value
        · simp [settle_trader_state, h1, h2, h3] at h
        · simp [settle_trader_state, h1, h2, h3] at h
          rw [← h]
          simp [h1]
      · simp [settle_trader_state, h1, h2] at h
    · simp [settle_trader_state, h1] at h
  · intro s vault ts ts1 h
    by_cases h1 : s = vault.owner ∨ s = vault.authority
    · by_cases h2 : ts.is_initialized
      · simp [mark_trader_initialized, h1, h2] at h
      · simp [mark_trader_initialized, h1, h2] at h
        exact h.symm
    · simp [mark_trader_initialized, h1] at h
  · intro ts h1 h2
    simp [resume_trader_state, h1, h2]

/-- Witness for is_settled_irreversible: a successful base-asset exit
swap on a settled-and-resumed TraderState keeps is_settled true and
changes only current_value; settlement and initialization marking at
concrete states; and the resume corollary on a settled state. -/
theorem is_settled_irreversible_witness :
    (⟨1, 3, 10, 0, 999, 100, 0, false, true, true, false⟩ : TraderState)
      = { (⟨1, 3, 10, 0, 100, 100, 0, false, true, true, false⟩ : TraderState)
          with current_value := 999 } ∧
    (⟨1, 3, 10, 0, 500, 500, 0, true, true, true, false⟩ : TraderState)
      = { (⟨1, 3, 10, 0, 500, 500, 0, true, false, true, false⟩ : TraderState)
          with is_settled := true } ∧
    (⟨1, 3, 10, 0, 500, 500, 0, false, false, true, false⟩ : TraderState)
      = { (⟨1, 3, 10, 0, 500, 500, 0, false, false, false, false⟩ : TraderState)
          with is_initialized := true } ∧
    ((resume_trader_state ⟨1, 3, 10, 0, 500, 500, 0, true, true, true, false⟩).is_paused
        = false ∧
      (resume_trader_state ⟨1, 3, 10, 0, 500, 500, 0, true, true, true, false⟩).is_settled
        = true ∧
      ((resume_trader_state ⟨1, 3, 10, 0, 500, 500, 0, true, true, true, false⟩).is_initialized ||
        (resume_trader_state ⟨1, 3, 10, 0, 500, 500, 0, true, true, true, false⟩).is_syncing)
        = true) :=
  ⟨by
    have := is_settled_irreversible.2.2.1 2 ⟨1, 2, 0, false, 7, []⟩ 20
      ⟨1, 3, 10, 0, 100, 100, 0, false, true, true, false⟩
      ⟨7, 20, 2000⟩ ⟨7, 20, 0⟩ ⟨7, 5, 0⟩ ⟨5, 10, 2000, false⟩ 1 1000 999
      (fun a b => some (a, b))
      ⟨⟨1, 3, 10, 0, 999, 100, 0, false, true, true, false⟩, 1000, 999, 1⟩ (by rfl)
    exact this,
   is_settled_irreversible.2.2.2.1 ⟨1, 2, 0, false, 7, []⟩
     ⟨1, 3, 10, 0, 500, 500, 0, true, false, true, false⟩
     ⟨1, 3, 10, 0, 500, 500, 0, true, true, true, false⟩ ⟨7, 20, 500⟩ (by rfl),
   is_settled_irreversible.2.2.2.2.1 1 ⟨1, 2, 0, false, 7, []⟩
     ⟨1, 3, 10, 0, 500, 500, 0, false, false, false, false⟩
     ⟨1, 3, 10, 0, 500, 500, 0, false, false, true, false⟩ (by rfl),
   is_settled_irreversible.2.2.2.2.2
     ⟨1, 3, 10, 0, 500, 500, 0, true, true, true, false⟩ (by decide) (by decide)⟩

/-- Counterexample to claim C6: the legacy execute_swap does not perform
the fee destination validation of section 4.4.  With the fee account
owned by the configured admin (5) and denominated in the input mint, the
section 4.4 validation passes yet the legacy path rejects the swap with
InvalidFeeDestination (it compares against the hardcoded platform fee
wallet); conversely a fee account owned by the hardcoded wallet but of
the wrong mint and not admin-owned sails through to a successful swap,
showing the legacy path checks neither the admin identity nor the asset
type. -/
theorem execute_swap_fee_destination_cex :
    spec_fee_destination_ok 5 7 ⟨7, 5, 0⟩ ∧
    execute_swap ⟨5, 10, 2000, true⟩ ⟨1, 2, 0, false, 7, []⟩ 2
      ⟨7, 10, 2000⟩ ⟨7, 10, 0⟩ ⟨7, 5, 0⟩ 1000 0 25 (fun a b => some (a, b))
      = .error (.code .InvalidFeeDestination) ∧
    ¬ spec_fee_destination_ok 5 7 ⟨8, 0, 0⟩ ∧
    execute_swap ⟨5, 10, 2000, true⟩ ⟨1, 2, 0, false, 7, []⟩ 2
      ⟨7, 10, 2000⟩ ⟨7, 10, 0⟩ ⟨8, 0, 0⟩ 1000 0 25 (fun a b => some (a, b))
      = .ok { input_amount := 1999, output_amount := 0, fee_paid := 1 } :=
  ⟨by decide, by rfl, by decide, by rfl⟩

/-- Claim C6 amended: the legacy execute_swap enforces topology,
slippage and fee-evasion validations like the section 4.4 engine and
checks the vault whitelist instead of per-allocation ownership, but its
fee destination validation only requires the fee account owner to equal
the hardcoded platform fee wallet, with no admin comparison and no
asset-type check. -/
theorem execute_swap_checks_amended :
    (∀ (cfg : GlobalConfig) (vault : UserVault) (authority : Nat)
       (ain aout fa : TokenAccount) (ai mo dl : Nat)
       (ex : Nat → Nat → Option (Nat × Nat)),
      cfg.legacy_trading_enabled = true → vault.is_paused = false →
      vault.authority = authority →
      is_valid_mint vault ain.mint = true →
      is_valid_mint vault aout.mint = true →
      (ain.mint = vault.base_mint ∨ aout.mint = vault.base_mint) →
      fa.owner ≠ PLATFORM_FEE_WALLET →
      execute_swap cfg vault authority ain aout fa ai mo dl ex
        = .error (.code .InvalidFeeDestination)) ∧
    (∀ (cfg : GlobalConfig) (vault : UserVault) (authority : Nat)
       (ain aout fa : TokenAccount) (ai mo dl : Nat)
       (ex : Nat → Nat → Option (Nat × Nat)),
      cfg.legacy_trading_enabled = true → vault.is_paused = false →
      vault.authority = authority →
      is_valid_mint vault ain.mint = false →
      execute_swap cfg vault authority ain aout fa ai mo dl ex
        = .error (.code .TokenNotAllowed)) ∧
    (∀ (cfg : GlobalConfig) (vault : UserVault) (authority : Nat)
       (ain aout fa : TokenAccount) (ai mo dl : Nat)
       (ex : Nat → Nat → Option (Nat × Nat)),
      cfg.legacy_trading_enabled = true → vault.is_paused = false →
      vault.authority = authority →
      is_valid_mint vault ain.mint = true →
      is_valid_mint vault aout.mint = true →
      ain.mint ≠ vault.base_mint → aout.mint ≠ vault.base_mint →
      execute_swap cfg vault authority ain aout fa ai mo dl ex
        = .error (.code .InvalidSwapTopology)) ∧
    (∀ (cfg : GlobalConfig) (vault : UserVault) (authority : Nat)
       (ain aout fa : TokenAccount) (ai mo dl bin_after bout_after : Nat)
       (ex : Nat → Nat → Option (Nat × Nat)),
      cfg.legacy_trading_enabled = true → vault.is_paused = false →
      vault.authority = authority →
      is_valid_mint vault ain.mint = true →
      is_valid_mint vault aout.mint = true →
      (ain.mint = vault.base_mint ∨ aout.mint = vault.base_mint) →
      fa.owner = PLATFORM_FEE_WALLET →
      ai * 10 < U64_MOD →
      ai * 10 / 10000 ≤ ain.amount →
      24 < dl →
      ex (ain.amount - ai * 10 / 10000) aout.amount = some (bin_after, bout_after) →
      bout_after - aout.amount < mo →
      execute_swap cfg vault authority ain aout fa ai mo dl ex
        = .error (.code .SlippageExceeded)) ∧
    (∀ (cfg : GlobalConfig) (vault : UserVault) (authority : Nat)
       (ain aout fa : TokenAccount) (ai mo dl bin_after bout_after : Nat)
       (ex : Nat → Nat → Option (Nat × Nat)),
      cfg.legacy_trading_enabled = true → vault.is_paused = false →
      vault.authority = authority →
      is_valid_mint vault ain.mint = true →
      is_valid_mint vault aout.mint = true →
      (ain.mint = vault.base_mint ∨ aout.mint = vault.base_mint) →
      fa.owner = PLATFORM_FEE_WALLET →
      ai * 10 < U64_MOD →
      ai * 10 / 10000 ≤ ain.amount →
      24 < dl →
      ex (ain.amount - ai * 10 / 10000) aout.amount = some (bin_after, bout_after) →
      mo ≤ bout_after - aout.amount →
      ai < ain.amount - bin_after →
      execute_swap cfg vault authority ain aout fa ai mo dl ex
        = .error (.code .FeeEvasion)) := by
  refine ⟨?_, ?_, ?_, ?_, ?_⟩
  · intro cfg vault authority ain aout fa ai mo dl ex h1 h2 h3 h4 h5 h6 h7
    simp [execute_swap, h1, h2, h3, h4, h5, h6, h7]
  · intro cfg vault authority ain aout fa ai mo dl ex h1 h2 h3 h4
    simp [execute_swap, h1, h2, h3, h4]
  · intro cfg vault authority ain aout fa ai mo dl ex h1 h2 h3 h4 h5 h6 h7
    simp [execute_swap, h1, h2, h3, h4, h5, h6, h7]
  · intro cfg vault authority ain aout fa ai mo dl bin_after bout_after ex
      h1 h2 h3 h4 h5 h6 h7 hmul hfee hdl hex hrecv
    simp [execute_swap, h1, h2, h3, h4, h5, h6, h7, not_le.mpr hmul,
      Nat.not_lt.mpr hfee, not_le.mpr hdl, hex, hrecv]
  · intro cfg vault authority ain aout fa ai mo dl bin_after bout_after ex
      h1 h2 h3 h4 h5 h6 h7 hmul hfee hdl hex hrecv hspent
    simp [execute_swap, h1, h2, h3, h4, h5, h6, h7, not_le.mpr hmul,
      Nat.not_lt.mpr hfee, not_le.mpr hdl, hex, Nat.not_lt.mpr hrecv, hspent]

/-- Witness for execute_swap_checks_amended: each legacy-path validation
exercised at a concrete input (non-wallet fee owner; non-whitelisted
input mint; no base asset on either side; under-delivery; and an
executor draining more than the declared budget). -/
theorem execute_swap_checks_amended_witness :
    execute_swap ⟨5, 10, 2000, true⟩ ⟨1, 2, 0, false, 7, []⟩ 2
      ⟨7, 10, 2000⟩ ⟨7, 10, 0⟩ ⟨7, 5, 0⟩ 1000 0 25 (fun a b => some (a, b))
      = .error (.code .InvalidFeeDestination) ∧
    execute_swap ⟨5, 10, 2000, true⟩ ⟨1, 2, 0, false, 7, []⟩ 2
      ⟨8, 10, 2000⟩ ⟨7, 10, 0⟩ ⟨8, 0, 0⟩ 1000 0 25 (fun a b => some (a, b))
      = .error (.code .TokenNotAllowed) ∧
    execute_swap ⟨5, 10, 2000, true⟩ ⟨1, 2, 0, false, 7, [8, 9]⟩ 2
      ⟨8, 10, 2000⟩ ⟨9, 10, 0⟩ ⟨8, 0, 0⟩ 1000 0 25 (fun a b => some (a, b))
      = .error (.code .InvalidSwapTopology) ∧
    execute_swap ⟨5, 10, 2000, true⟩ ⟨1, 2, 0, false, 7, []⟩ 2
      ⟨7, 10, 2000⟩ ⟨7, 10, 0⟩ ⟨7, 0, 0⟩ 1000 1 25 (fun a b => some (a, b))
      = .error (.code .SlippageExceeded) ∧
    execute_swap ⟨5, 10, 2000, true⟩ ⟨1, 2, 0, false, 7, []⟩ 2
      ⟨7, 10, 2000⟩ ⟨7, 10, 0⟩ ⟨7, 0, 0⟩ 1 0 25 (fun a b => some (a - 1000, b))
      = .error (.code .FeeEvasion) :=
  ⟨execute_swap_checks_amended.1 ⟨5, 10, 2000, true⟩ ⟨1, 2, 0, false, 7, []⟩ 2
     ⟨7, 10, 2000⟩ ⟨7, 10, 0⟩ ⟨7, 5, 0⟩ 1000 0 25 (fun a b => some (a, b))
     (by decide) (by decide) (by decide) (by decide) (by decide) (by decide)
     (by decide),
   execute_swap_checks_amended.2.1 ⟨5, 10, 2000, true⟩ ⟨1, 2, 0, false, 7, []⟩ 2
     ⟨8, 10, 2000⟩ ⟨7, 10, 0⟩ ⟨8, 0, 0⟩ 1000 0 25 (fun a b => some (a, b))
     (by decide) (by decide) (by decide) (by decide),
   execute_swap_checks_amended.2.2.1 ⟨5, 10, 2000, true⟩
     ⟨1, 2, 0, false, 7, [8, 9]⟩ 2
     ⟨8, 10, 2000⟩ ⟨9, 10, 0⟩ ⟨8, 0, 0⟩ 1000 0 25 (fun a b => some (a, b))
     (by decide) (by decide) (by decide) (by decide) (by decide) (by decide)
     (by decide),
   execute_swap_checks_amended.2.2.2.1 ⟨5, 10, 2000, true⟩
     ⟨1, 2, 0, false, 7, []⟩ 2
     ⟨7, 10, 2000⟩ ⟨7, 10, 0⟩ ⟨7, 0, 0⟩ 1000 1 25 1999 0
     (fun a b => some (a, b)) (by decide) (by decide) (by decide) (by decide)
     (by decide) (by decide) (by decide) (by decide) (by decide) (by decide)
     (by decide) (by decide),
   execute_swap_checks_amended.2.2.2.2 ⟨5, 10, 2000, true⟩
     ⟨1, 2, 0, false, 7, []⟩ 2
     ⟨7, 10, 2000⟩ ⟨7, 10, 0⟩ ⟨7, 0, 0⟩ 1 0 25 1000 0
     (fun a b => some (a - 1000, b)) (by decide) (by decide) (by decide)
     (by decide) (by decide) (by decide) (by decide) (by decide) (by decide)
     (by decide) (by decide) (by decide) (by decide)⟩

end StellalphaVault
